import Mathlib

/-!
# Verification of `firedrake/norms.py`

A shallow embedding of the norm / error-norm subsystem in
`src/firedrake/norms.py`.  The module exposes two functions:

* `norm(v, norm_type="L2", mesh=None)` — dispatches on
  `norm_type.lower()` to build a symbolic UFL form (`inner(v, v)*dx`,
  plus a differential-operator term for `h1` / `hdiv` / `hcurl`),
  raises `RuntimeError("Unknown norm type '%s'" % norm_type)` otherwise,
  and returns `sqrt(assemble(form))`.  `sqrt` is `ufl.sqrt`, which
  constant-folds a real scalar through `math.sqrt` and therefore raises
  a domain error on any negative argument.
* `errornorm(u, uh, norm_type="L2", degree_rise=None, mesh=None)` —
  checks that the tensor ranks of `u` and `uh` agree
  (`RuntimeError("Mismatching rank between u and uh")`), that `uh` is a
  `Function` (`ValueError("uh should be a Function, is a %r", type(uh))`),
  emits a warning when `u` is a `Function` whose degree is below the
  degree of `uh`, and returns `norm(u - uh, norm_type=norm_type, mesh=mesh)`.

Symbolic UFL expressions and forms are embedded as inductive syntax
trees; the external assembly engine is an arbitrary function
`Form → ℚ` supplied as a parameter; the final square root is
represented by its radicand (the assembled value), since the exact
real square root carries no further information for the properties
proved here.
-/

namespace FiredrakeNorms

/-- A top-level field argument, as consumed by `errornorm`: it exposes a
tensor rank (`len(u.ufl_shape)` in the source), whether it is a
`firedrake.function.Function` (as opposed to a bare UFL expression), the
polynomial degree of its function space (meaningful only when it is a
`Function`: `u.function_space().ufl_element().degree()`), and the name of
its Python type (what `type(uh)` prints as). -/
structure Field where
  rank : Nat
  isFunction : Bool
  degree : Nat
  typeName : String
deriving DecidableEq, Repr

/-- Symbolic UFL expressions, restricted to the constructors the module
uses: base fields, pointwise difference `u - uh`, `inner`, `grad`, `div`,
`curl`, scalar product (`div(v)*div(v)`) and scalar sum. -/
inductive Expr where
  | base (f : Field)
  | sub (a b : Expr)
  | inner (a b : Expr)
  | grad (a : Expr)
  | div (a : Expr)
  | curl (a : Expr)
  | mul (a b : Expr)
  | add (a b : Expr)
deriving DecidableEq, Repr

/-- The differential measure.  The source imports (and uses) only the
cell measure `dx` from UFL. -/
inductive Measure where
  | dx
deriving DecidableEq, Repr

/-- Symbolic UFL forms: a single integral `integrand * measure`, or a
sum of forms (`a*dx + b*dx` in the source builds `Form.add`). -/
inductive Form where
  | intg (integrand : Expr) (m : Measure)
  | add (a b : Form)
deriving DecidableEq, Repr

/-- The error conditions raised by the module.

* `rankMismatch` — `RuntimeError("Mismatching rank between u and uh")`.
* `typeMismatch tmpl kind` — `ValueError("uh should be a Function, is a %r",
  type(uh))`: carries the message template and the actual type of `uh`.
* `unsupportedNorm s` — `RuntimeError("Unknown norm type '%s'" % norm_type)`:
  carries the offending `norm_type` string exactly as supplied.
* `domainError` — the `ValueError` (math domain error) raised by
  `ufl.sqrt` when the assembled scalar is negative. -/
inductive NormError where
  | rankMismatch
  | typeMismatch (template : String) (actualKind : String)
  | unsupportedNorm (offending : String)
  | domainError
deriving DecidableEq, Repr

/-- A successful norm evaluation.  The returned scalar is
`√ radicand`; it is represented by its radicand, the assembled value of
the symbolic form (which the theorems show to be nonnegative whenever a
`SqrtVal` is produced, so the scalar is a well-defined nonnegative
real number). -/
structure SqrtVal where
  radicand : ℚ
deriving DecidableEq, Repr

/-- Python's `str.lower()` (`norm_type.lower()` in the source), as it
acts on the ASCII kind strings: each character is mapped to its
lowercase form.  (Equal to `String.toLower`, but stated over the
character list so that concrete instances evaluate.) -/
def strLower (s : String) : String :=
  ⟨s.data.map Char.toLower⟩

/-- The form-building stage of `norm` (`src/firedrake/norms.py`,
lines 75–85): lowercase the requested kind, dispatch on the exact
lowercased token, and fail with `unsupportedNorm norm_type` on anything
else. -/
def normForm (v : Expr) (norm_type : String) : Except NormError Form :=
  let typ := strLower norm_type
  if typ = "l2" then
    .ok (.intg (.inner v v) .dx)
  else if typ = "h1" then
    .ok (.add (.intg (.inner v v) .dx) (.intg (.inner (.grad v) (.grad v)) .dx))
  else if typ = "hdiv" then
    .ok (.add (.intg (.inner v v) .dx) (.intg (.mul (.div v) (.div v)) .dx))
  else if typ = "hcurl" then
    .ok (.add (.intg (.inner v v) .dx) (.intg (.inner (.curl v) (.curl v)) .dx))
  else
    .error (.unsupportedNorm norm_type)

/-- `ufl.sqrt` applied to the real scalar returned by `assemble`:
UFL constant-folds through `math.sqrt`, which raises a domain error on
every negative argument (there is no tolerance or clamping in the code),
and otherwise returns the nonnegative square root, represented here by
its radicand. -/
def uflSqrt (x : ℚ) : Except NormError SqrtVal :=
  if x < 0 then .error .domainError else .ok ⟨x⟩

/-- Embedding of `norm(v, norm_type="L2", mesh=None)`
(`src/firedrake/norms.py`, lines 40–87).  The external assembly engine
is passed in as `assemble`; `mesh` is accepted and never consulted, as
in the source. -/
def norm (assemble : Form → ℚ) (v : Expr) (norm_type : String)
    (mesh : Option Nat) : Except NormError SqrtVal :=
  match normForm v norm_type with
  | .error e => .error e
  | .ok form => uflSqrt (assemble form)

/-- The single warning message `errornorm` can emit
(`src/firedrake/norms.py`, line 35). -/
def degreeWarning : String :=
  "Degree of exact solution less than approximation degree"

/-- Embedding of `errornorm(u, uh, norm_type="L2", degree_rise=None,
mesh=None)` (`src/firedrake/norms.py`, lines 11–37).  Returns the list
of warnings emitted (the call to `firedrake.logging.warning`) together
with the result.  `degree_rise` is accepted and never consulted, as in
the source; `mesh` is forwarded to `norm`, which ignores it. -/
def errornorm (assemble : Form → ℚ) (u uh : Field) (norm_type : String)
    (degree_rise : Option Nat) (mesh : Option Nat) :
    List String × Except NormError SqrtVal :=
  if u.rank ≠ uh.rank then
    ([], .error .rankMismatch)
  else if uh.isFunction = false then
    ([], .error (.typeMismatch "uh should be a Function, is a %r" uh.typeName))
  else
    let warnings :=
      if u.isFunction = true ∧ u.degree < uh.degree then [degreeWarning] else []
    (warnings, norm assemble (.sub (.base u) (.base uh)) norm_type mesh)

/-- The norm-kind enumeration of the specification (§3, Norm Request). -/
inductive NormKind where
  | l2
  | h1
  | hdiv
  | hcurl
deriving DecidableEq, Repr

/-- The integrand table of the specification (§4.2), stated in the
spec's words: the integrand associated to each norm kind, before it is
multiplied by the differential measure. -/
def tableIntegrand (v : Expr) : NormKind → Expr
  | .l2 => .inner v v
  | .h1 => .add (.inner v v) (.inner (.grad v) (.grad v))
  | .hdiv => .add (.inner v v) (.mul (.div v) (.div v))
  | .hcurl => .add (.inner v v) (.inner (.curl v) (.curl v))

/-- The sum of all integrands appearing in a form (each integral of the
source's forms carries the measure `dx`; summing the integrands relates
`a*dx + b*dx` to the single integrand `a + b` of the spec's table). -/
def Form.integrandSum : Form → Expr
  | .intg e _ => e
  | .add a b => .add a.integrandSum b.integrandSum

/-- Whether the form-building stage of `norm` succeeds (no
`unsupportedNorm` raised) for the given kind string. -/
def buildSucceeds (v : Expr) (norm_type : String) : Bool :=
  match normForm v norm_type with
  | .ok _ => true
  | .error _ => false

/-- Unfolding lemma: `normForm` as an if-chain over the lowercased kind
string. -/
theorem normForm_eq (v : Expr) (k : String) :
    normForm v k =
      if strLower k = "l2" then
        .ok (.intg (.inner v v) .dx)
      else if strLower k = "h1" then
        .ok (.add (.intg (.inner v v) .dx)
          (.intg (.inner (.grad v) (.grad v)) .dx))
      else if strLower k = "hdiv" then
        .ok (.add (.intg (.inner v v) .dx)
          (.intg (.mul (.div v) (.div v)) .dx))
      else if strLower k = "hcurl" then
        .ok (.add (.intg (.inner v v) .dx)
          (.intg (.inner (.curl v) (.curl v)) .dx))
      else
        .error (.unsupportedNorm k) := rfl

/-- Two kind strings with the same lowercasing succeed on exactly the
same forms (the successful branches of the dispatch depend only on
`strLower k`). -/
theorem normForm_lower_congr (v : Expr) (k1 k2 : String)
    (h : strLower k1 = strLower k2) (f : Form) :
    normForm v k1 = .ok f ↔ normForm v k2 = .ok f := by
  rw [normForm_eq, normForm_eq, h]
  split_ifs <;> simp

/-- C1: whenever the form-building stage succeeds, `norm` hands the form
to the assembly engine and applies the square root: if the assembled
value is negative (the code has no tolerance — every negative value,
however small, is rejected), the call fails with the numerical domain
error instead of taking the square root; and every successful result is
the square root of an assembled value that is exactly preserved (never
clamped or coerced) and nonnegative, so the returned scalar is a
nonnegative real number, never negative or complex. -/
theorem C1_negative_assembly_fails (assemble : Form → ℚ) (v : Expr)
    (norm_type : String) (mesh : Option Nat) (form : Form)
    (hf : normForm v norm_type = .ok form) :
    (assemble form < 0 →
      norm assemble v norm_type mesh = .error .domainError) ∧
    (∀ s, norm assemble v norm_type mesh = .ok s →
      s.radicand = assemble form ∧ 0 ≤ s.radicand) := by
  constructor
  · intro hneg
    simp [norm, hf, uflSqrt, hneg]
  · intro s hs
    simp only [norm, hf, uflSqrt] at hs
    split at hs
    · exact absurd hs (by simp)
    · next h =>
      cases hs
      exact ⟨rfl, le_of_not_lt h⟩

/-- C1 witness: with an assembly engine returning `-1`, `norm` fails
with the domain error. -/
theorem C1_negative_assembly_fails_witness :
    norm (fun _ => (-1 : ℚ)) (.base ⟨0, true, 1, "Function"⟩) "L2" none
      = .error .domainError := by
  have h := C1_negative_assembly_fails (fun _ => (-1 : ℚ))
    (.base ⟨0, true, 1, "Function"⟩) "L2" none
    (.intg (.inner (.base ⟨0, true, 1, "Function"⟩)
      (.base ⟨0, true, 1, "Function"⟩)) .dx) rfl
  exact h.1 (by norm_num)

/-- C3: when both validations pass (equal ranks, approximation a
`Function`), `errornorm` returns exactly `norm` applied to the algebraic
difference `u - uh` with the same kind string — with no post-processing
of the scalar, for every norm kind and every assembly engine. -/
theorem C3_delegates_to_norm (assemble : Form → ℚ) (u uh : Field)
    (norm_type : String) (degree_rise mesh : Option Nat)
    (hrank : u.rank = uh.rank) (hfun : uh.isFunction = true) :
    (errornorm assemble u uh norm_type degree_rise mesh).2
      = norm assemble (.sub (.base u) (.base uh)) norm_type mesh := by
  simp [errornorm, hrank, hfun]

/-- C3 witness: delegation at a concrete pair of equal-rank fields. -/
theorem C3_delegates_to_norm_witness :
    (errornorm (fun _ => (4 : ℚ)) ⟨0, true, 2, "Function"⟩
      ⟨0, true, 1, "Function"⟩ "h1" none none).2
      = norm (fun _ => (4 : ℚ))
          (.sub (.base ⟨0, true, 2, "Function"⟩)
            (.base ⟨0, true, 1, "Function"⟩)) "h1" none :=
  C3_delegates_to_norm _ _ _ _ _ _ rfl rfl

/-- C6: `norm`'s dispatch depends on the kind string only through its
lowercased value: form building succeeds exactly when the lowercased
string is one of the tokens `l2`, `h1`, `hdiv`, `hcurl`; kind strings
with equal lowercasings succeed or fail together, and on success produce
identical results; `norm(v, "l2")` and `norm(v, "L2")` are identical;
and strings with leading or trailing whitespace fail with the
unsupported-norm error, exactly like an unknown kind. -/
theorem C6_case_insensitive_dispatch (assemble : Form → ℚ) (v : Expr)
    (mesh : Option Nat) (k k1 k2 : String)
    (hlow : strLower k1 = strLower k2) :
    (buildSucceeds v k = true ↔
      (strLower k = "l2" ∨ strLower k = "h1" ∨
       strLower k = "hdiv" ∨ strLower k = "hcurl")) ∧
    buildSucceeds v k1 = buildSucceeds v k2 ∧
    (buildSucceeds v k1 = true →
      norm assemble v k1 mesh = norm assemble v k2 mesh) ∧
    norm assemble v "l2" mesh = norm assemble v "L2" mesh ∧
    norm assemble v " l2" mesh = .error (.unsupportedNorm " l2") ∧
    norm assemble v "l2 " mesh = .error (.unsupportedNorm "l2 ") := by
  refine ⟨?_, ?_, ?_, rfl, rfl, rfl⟩
  · unfold buildSucceeds
    rw [normForm_eq]
    split_ifs with h1 h2 h3 h4 <;> simp_all
  · unfold buildSucceeds
    cases hk1 : normForm v k1 with
    | error e =>
      cases hk2 : normForm v k2 with
      | error e2 => rfl
      | ok f2 =>
        rw [← normForm_lower_congr v k1 k2 hlow f2, hk1] at hk2
        cases hk2
    | ok f =>
      rw [(normForm_lower_congr v k1 k2 hlow f).mp hk1]
  · intro hb
    unfold buildSucceeds at hb
    cases hk1 : normForm v k1 with
    | error e => rw [hk1] at hb; cases hb
    | ok f =>
      have hk2 : normForm v k2 = .ok f :=
        (normForm_lower_congr v k1 k2 hlow f).mp hk1
      simp [norm, hk1, hk2]

/-- C6 witness: equal dispatch for `"l2"` and `"L2"` at a concrete
field, and failure with the unsupported-norm error on `" l2"`. -/
theorem C6_case_insensitive_dispatch_witness :
    buildSucceeds (.base ⟨0, true, 1, "Function"⟩) "l2"
      = buildSucceeds (.base ⟨0, true, 1, "Function"⟩) "L2" ∧
    norm (fun _ => (1 : ℚ)) (.base ⟨0, true, 1, "Function"⟩) "l2" none
      = norm (fun _ => (1 : ℚ)) (.base ⟨0, true, 1, "Function"⟩) "L2" none ∧
    norm (fun _ => (1 : ℚ)) (.base ⟨0, true, 1, "Function"⟩) " l2" none
      = .error (.unsupportedNorm " l2") := by
  have h := C6_case_insensitive_dispatch (fun _ => (1 : ℚ))
    (.base ⟨0, true, 1, "Function"⟩) none "H2" "l2" "L2" rfl
  exact ⟨h.2.1, h.2.2.1 rfl, h.2.2.2.2.1⟩

/-- C7: for every kind string whose lowercasing is none of the four
supported tokens, `norm` fails with the unsupported-norm error carrying
the offending string exactly as the caller supplied it. -/
theorem C7_unsupported_norm (assemble : Form → ℚ) (v : Expr)
    (mesh : Option Nat) (k : String)
    (h1 : strLower k ≠ "l2") (h2 : strLower k ≠ "h1")
    (h3 : strLower k ≠ "hdiv") (h4 : strLower k ≠ "hcurl") :
    norm assemble v k mesh = .error (.unsupportedNorm k) := by
  unfold norm
  rw [normForm_eq]
  simp [h1, h2, h3, h4]

/-- C7 witness: `norm(v, "H2")` fails with the unsupported-norm error
carrying `"H2"`. -/
theorem C7_unsupported_norm_witness :
    norm (fun _ => (1 : ℚ)) (.base ⟨0, true, 1, "Function"⟩) "H2" none
      = .error (.unsupportedNorm "H2") :=
  C7_unsupported_norm _ _ _ _ (by decide) (by decide) (by decide) (by decide)

/-- C8: when both validations pass, a discretized reference whose degree
is below the approximation's degree makes `errornorm` emit exactly one
warning and still return exactly the scalar `norm` produces on the
difference — the comparison never blocks and never alters the result;
and a purely symbolic (non-`Function`) reference triggers no degree
comparison and no warning. -/
theorem C8_degree_warning (assemble : Form → ℚ) (u uh : Field)
    (norm_type : String) (degree_rise mesh : Option Nat)
    (hrank : u.rank = uh.rank) (hfun : uh.isFunction = true) :
    ((u.isFunction = true ∧ u.degree < uh.degree) →
      errornorm assemble u uh norm_type degree_rise mesh
        = ([degreeWarning],
           norm assemble (.sub (.base u) (.base uh)) norm_type mesh)) ∧
    (u.isFunction = false →
      errornorm assemble u uh norm_type degree_rise mesh
        = ([], norm assemble (.sub (.base u) (.base uh)) norm_type mesh)) := by
  constructor
  · intro hw
    simp [errornorm, hrank, hfun, hw]
  · intro hs
    simp [errornorm, hrank, hfun, hs]

/-- C8 witness: reference of degree 1 against an approximation of
degree 2 emits exactly the one warning and delegates unchanged. -/
theorem C8_degree_warning_witness :
    errornorm (fun _ => (1 : ℚ)) ⟨0, true, 1, "Function"⟩
      ⟨0, true, 2, "Function"⟩ "L2" none none
      = ([degreeWarning],
         norm (fun _ => (1 : ℚ))
           (.sub (.base ⟨0, true, 1, "Function"⟩)
             (.base ⟨0, true, 2, "Function"⟩)) "L2" none) :=
  (C8_degree_warning (fun _ => (1 : ℚ)) ⟨0, true, 1, "Function"⟩
    ⟨0, true, 2, "Function"⟩ "L2" none none rfl rfl).1 ⟨rfl, by decide⟩

/-- C2: for every field expression `v`, the symbolic form `norm` builds is
exactly the kind table's integrand with each term multiplied by the
measure `dx` and summed: `inner(v,v)*dx` for L2,
`inner(v,v)*dx + inner(grad v, grad v)*dx` for H1,
`inner(v,v)*dx + div(v)*div(v)*dx` for Hdiv,
`inner(v,v)*dx + inner(curl v, curl v)*dx` for Hcurl; the total integrand
of each built form equals the spec's table integrand, and the form passed
to the assembly engine is exactly the built form — form construction
performs no numerical work (`normForm` never consults `assemble`). -/
theorem C2_form_table (v : Expr) :
    normForm v "L2" = .ok (.intg (.inner v v) .dx) ∧
    normForm v "H1" =
      .ok (.add (.intg (.inner v v) .dx) (.intg (.inner (.grad v) (.grad v)) .dx)) ∧
    normForm v "Hdiv" =
      .ok (.add (.intg (.inner v v) .dx) (.intg (.mul (.div v) (.div v)) .dx)) ∧
    normForm v "Hcurl" =
      .ok (.add (.intg (.inner v v) .dx) (.intg (.inner (.curl v) (.curl v)) .dx)) ∧
    ((normForm v "L2").map Form.integrandSum = .ok (tableIntegrand v .l2) ∧
     (normForm v "H1").map Form.integrandSum = .ok (tableIntegrand v .h1) ∧
     (normForm v "Hdiv").map Form.integrandSum = .ok (tableIntegrand v .hdiv) ∧
     (normForm v "Hcurl").map Form.integrandSum = .ok (tableIntegrand v .hcurl)) ∧
    (∀ (assemble : Form → ℚ) (k : String) (mesh : Option Nat) (f : Form),
      normForm v k = .ok f → norm assemble v k mesh = uflSqrt (assemble f)) := by
  refine ⟨rfl, rfl, rfl, rfl, ⟨rfl, rfl, rfl, rfl⟩, ?_⟩
  intro assemble k mesh f hf
  simp [norm, hf]

/-- C2 witness: the delegation conjunct instantiated at a concrete field,
assembly engine and form. -/
theorem C2_form_table_witness :
    norm (fun _ => (1 : ℚ)) (.base ⟨0, true, 1, "Function"⟩) "L2" none
      = uflSqrt (((fun _ => (1 : ℚ)) : Form → ℚ)
          (.intg (.inner (.base ⟨0, true, 1, "Function"⟩)
            (.base ⟨0, true, 1, "Function"⟩)) .dx)) :=
  (C2_form_table (.base ⟨0, true, 1, "Function"⟩)).2.2.2.2.2
    (fun _ => (1 : ℚ)) "L2" none _ rfl

/-- C4: whenever the two operands of `errornorm` have different tensor
ranks, the call fails with the rank-mismatch error, emits no warning, and
performs no computation: the outcome is the literal error pair for every
assembly engine. -/
theorem C4_rank_mismatch (assemble : Form → ℚ) (u uh : Field)
    (norm_type : String) (degree_rise mesh : Option Nat)
    (h : u.rank ≠ uh.rank) :
    errornorm assemble u uh norm_type degree_rise mesh
      = ([], .error .rankMismatch) := by
  simp [errornorm, h]

/-- C4 witness: a rank-1 (vector) reference against a rank-0 (scalar)
approximation fails with the rank-mismatch error. -/
theorem C4_rank_mismatch_witness :
    errornorm (fun _ => (0 : ℚ)) ⟨1, false, 0, "Expression"⟩
      ⟨0, true, 1, "Function"⟩ "L2" none none
      = ([], .error .rankMismatch) :=
  C4_rank_mismatch _ _ _ _ _ _ (by decide)

/-- C5: whenever the approximation operand is not a `Function` (and the
rank check passes), `errornorm` fails with the type-mismatch error
carrying the message template naming `uh` and the actual type of the
offending value, emits no warning, and computes no norm: the outcome is
the literal error pair for every assembly engine. -/
theorem C5_type_mismatch (assemble : Form → ℚ) (u uh : Field)
    (norm_type : String) (degree_rise mesh : Option Nat)
    (hrank : u.rank = uh.rank) (hfun : uh.isFunction = false) :
    errornorm assemble u uh norm_type degree_rise mesh
      = ([], .error (.typeMismatch "uh should be a Function, is a %r"
          uh.typeName)) := by
  simp [errornorm, hrank, hfun]

/-- C5 witness: a bare symbolic expression in the approximation slot
fails with the type-mismatch error carrying its type. -/
theorem C5_type_mismatch_witness :
    errornorm (fun _ => (0 : ℚ)) ⟨0, true, 1, "Function"⟩
      ⟨0, false, 0, "Expression"⟩ "L2" none none
      = ([], .error (.typeMismatch "uh should be a Function, is a %r"
          "Expression")) :=
  C5_type_mismatch _ _ _ _ _ _ rfl rfl

/-- C9: `degree_rise` and `mesh` are accepted but never consulted: two
calls to `errornorm` (or `norm`) differing only in those arguments have
identical outcomes — the same warnings, the same scalar or the same
error. -/
theorem C9_inert_parameters (assemble : Form → ℚ) (u uh : Field) (v : Expr)
    (norm_type : String) (dr1 dr2 m1 m2 : Option Nat) :
    errornorm assemble u uh norm_type dr1 m1
      = errornorm assemble u uh norm_type dr2 m2 ∧
    norm assemble v norm_type m1 = norm assemble v norm_type m2 :=
  ⟨rfl, rfl⟩

/-- C10: when the ranks differ and the approximation is additionally not
a `Function`, the error raised is the rank-mismatch error, not the
type-mismatch one: the rank check runs first. -/
theorem C10_rank_checked_first (assemble : Form → ℚ) (u uh : Field)
    (norm_type : String) (degree_rise mesh : Option Nat)
    (hrank : u.rank ≠ uh.rank) (hfun : uh.isFunction = false) :
    errornorm assemble u uh norm_type degree_rise mesh
      = ([], .error .rankMismatch) ∧
    ∀ t k, (errornorm assemble u uh norm_type degree_rise mesh).2
      ≠ .error (.typeMismatch t k) := by
  refine ⟨by simp [errornorm, hrank], ?_⟩
  intro t k
  simp [errornorm, hrank]

/-- C10 witness: rank-1 symbolic reference against a rank-0 symbolic
(non-`Function`) approximation raises the rank-mismatch error. -/
theorem C10_rank_checked_first_witness :
    errornorm (fun _ => (0 : ℚ)) ⟨1, false, 0, "Expression"⟩
      ⟨0, false, 0, "Expression"⟩ "L2" none none
      = ([], .error .rankMismatch) :=
  (C10_rank_checked_first _ _ _ _ _ _ (by decide) rfl).1

end FiredrakeNorms
